import Mathlib

/-
Verification of the subscription entitlement core of the mybranchesllc
repository: the plan catalog and limit evaluator (subscription-utils.ts),
the entitlement reconciler (useHouseholdSubscription hook), and the
purchase-flow orchestrator (usePurchases.ts, Pricing.tsx handleUpgrade).

Numbers that are JavaScript numbers holding integer limits are modelled
as Int. Optional (possibly undefined) JavaScript values are modelled as
Option. JavaScript truthiness on strings (non-empty means truthy) and on
numbers (non-zero means truthy) is made explicit where the source relies
on it. Asynchronous orchestration code is modelled by the ordered list of
observable effects (state updates, network requests, toasts) a run emits.
-/

namespace MyBranches

/- ----------------------------------------------------------------- -/
/- Plan catalog and limit evaluator, from subscription-utils.ts      -/
/- ----------------------------------------------------------------- -/

/-- Enumerated plan values, from `type SubscriptionPlan = 'basic' | 'premium'`. -/
inductive SubscriptionPlan where
  | basic
  | premium
deriving DecidableEq

/-- Per-plan limits record, from `interface SubscriptionLimits`.
Numeric limits use the sentinel -1 for unlimited. -/
structure SubscriptionLimits where
  maxGroups : Int
  maxEventsPerMonth : Int
  maxMembersPerGroup : Int
  canUseAdvancedFeatures : Bool
  hasRealTimeChat : Bool
  hasTaskManagement : Bool
  hasEventPlanning : Bool
  hasMailingLabels : Bool
deriving DecidableEq

/-- The static plan catalog, from `const PLAN_LIMITS`. -/
def PLAN_LIMITS : SubscriptionPlan → SubscriptionLimits
  | SubscriptionPlan.basic =>
    { maxGroups := 0
      maxEventsPerMonth := 0
      maxMembersPerGroup := -1
      canUseAdvancedFeatures := false
      hasRealTimeChat := true
      hasTaskManagement := true
      hasEventPlanning := false
      hasMailingLabels := false }
  | SubscriptionPlan.premium =>
    { maxGroups := -1
      maxEventsPerMonth := -1
      maxMembersPerGroup := -1
      canUseAdvancedFeatures := true
      hasRealTimeChat := true
      hasTaskManagement := true
      hasEventPlanning := true
      hasMailingLabels := true }

/-- From `function getPlanLimits(plan)`. -/
def getPlanLimits (plan : SubscriptionPlan) : SubscriptionLimits :=
  PLAN_LIMITS plan

/-- The keys of SubscriptionLimits, the domain of `keyof SubscriptionLimits`. -/
inductive FeatureKey where
  | maxGroups
  | maxEventsPerMonth
  | maxMembersPerGroup
  | canUseAdvancedFeatures
  | hasRealTimeChat
  | hasTaskManagement
  | hasEventPlanning
  | hasMailingLabels
deriving DecidableEq

/-- A value stored in a SubscriptionLimits field: either a numeric limit or
a boolean feature flag. In the source both live in one record and a dynamic
index `limits[feature]` can return either. -/
inductive LimitValue where
  | num (n : Int)
  | flag (b : Bool)
deriving DecidableEq

/-- Dynamic field lookup `limits[feature]`. -/
def limitField (limits : SubscriptionLimits) : FeatureKey → LimitValue
  | FeatureKey.maxGroups => LimitValue.num limits.maxGroups
  | FeatureKey.maxEventsPerMonth => LimitValue.num limits.maxEventsPerMonth
  | FeatureKey.maxMembersPerGroup => LimitValue.num limits.maxMembersPerGroup
  | FeatureKey.canUseAdvancedFeatures => LimitValue.flag limits.canUseAdvancedFeatures
  | FeatureKey.hasRealTimeChat => LimitValue.flag limits.hasRealTimeChat
  | FeatureKey.hasTaskManagement => LimitValue.flag limits.hasTaskManagement
  | FeatureKey.hasEventPlanning => LimitValue.flag limits.hasEventPlanning
  | FeatureKey.hasMailingLabels => LimitValue.flag limits.hasMailingLabels

/-- JavaScript truthiness of a SubscriptionLimits field value: a number is
truthy when non-zero, a boolean is itself. -/
def jsTruthyValue : LimitValue → Bool
  | LimitValue.num n => decide (n ≠ 0)
  | LimitValue.flag b => b

/-- From `function canUserAccessFeature(userPlan, feature)`: returns the raw
stored field value `limits[feature]` (the `as boolean` in the source is a
compile-time cast only; at runtime the value flows through unchanged and is
used for its truthiness). -/
def canUserAccessFeature (userPlan : SubscriptionPlan) (feature : FeatureKey) : LimitValue :=
  limitField (getPlanLimits userPlan) feature

/-- From `function canHouseholdAccessFeature(hasPremiumInHousehold, feature)`. -/
def canHouseholdAccessFeature (hasPremiumInHousehold : Bool) (feature : FeatureKey) : LimitValue :=
  canUserAccessFeature
    (if hasPremiumInHousehold then SubscriptionPlan.premium else SubscriptionPlan.basic)
    feature

/-- From `function hasReachedLimit(currentCount, limit)`. -/
def hasReachedLimit (currentCount limit : Int) : Bool :=
  if limit = -1 then false
  else decide (currentCount ≥ limit)

/-- From `function hasActiveSubscription(plan, status, endsAt?, provider?)`.
The current time is taken as an explicit parameter standing for the
`new Date()` read in the source; instants are integer timestamps. The
source returns false when the expiration date is less than or equal to
now, true otherwise, and ignores its provider argument. -/
def hasActiveSubscription (subscriptionPlan subscriptionStatus : Option String)
    (subscriptionEndsAt : Option Int) (subscriptionProviderArg : Option String)
    (now : Int) : Bool :=
  if subscriptionPlan ≠ some "premium" then false
  else if subscriptionStatus ≠ some "active" then false
  else
    match subscriptionEndsAt with
    | some expirationDate => if expirationDate ≤ now then false else true
    | none => true

/- ----------------------------------------------------------------- -/
/- Entitlement reconciler, from the useHouseholdSubscription hook    -/
/- ----------------------------------------------------------------- -/

/-- The `premiumUser` payload of the household subscription query. -/
structure PremiumUser where
  id : String
  firstName : Option String
  lastName : Option String
  email : Option String
  subscriptionProvider : Option String
deriving DecidableEq

/-- The `household` payload of the household subscription query. -/
structure HouseholdInfo where
  id : String
  name : String
deriving DecidableEq

/-- From `interface HouseholdSubscriptionStatus`: the household-level
billing aggregation returned by GET /api/household/subscription. -/
structure HouseholdSubscriptionStatus where
  hasPremium : Bool
  subscriptionProvider : Option String
  premiumUser : Option PremiumUser
  household : Option HouseholdInfo
deriving DecidableEq

/-- The user-profile subscription fields read off the auth user object:
`{ subscriptionPlan?: string; subscriptionProvider?: string }`. -/
structure UserProfile where
  subscriptionPlan : Option String
  subscriptionProvider : Option String
deriving DecidableEq

/-- From `interface ActiveSubscription` in services/purchases.ts. Dates are
integer timestamps; the provider-SDK entitlement-info map is external opaque
payload data and is not needed by any reconciliation decision, so it is not
carried here. -/
structure ActiveSubscription where
  productId : String
  isActive : Bool
  renewalDate : Option Int
  expirationDate : Option Int
  originalTransactionId : Option String
deriving DecidableEq

/-- From usePurchases: `const hasPremium = activeSubscription?.isActive || false`. -/
def mobileHasPremium (activeSubscription : Option ActiveSubscription) : Bool :=
  (activeSubscription.map fun s => s.isActive).getD false

/-- From useHouseholdSubscription: `const userIsPremium = user?.subscriptionPlan === 'premium'`. -/
def userIsPremium (user : Option UserProfile) : Bool :=
  decide ((user.bind fun u => u.subscriptionPlan) = some "premium")

/-- From useHouseholdSubscription, lines 39-42:
`householdStatus?.hasPremium || (isNativePlatform && mobileHasPremium) || userIsPremium`.
A missing household record makes the first disjunct undefined, hence falsy. -/
def computedHasPremium (householdStatus : Option HouseholdSubscriptionStatus)
    (isNativePlatform mobileHasPremium : Bool) (user : Option UserProfile) : Bool :=
  (householdStatus.map fun s => s.hasPremium).getD false
    || (isNativePlatform && mobileHasPremium)
    || userIsPremium user

/-- JavaScript truthiness of a string: non-empty strings are truthy. -/
def jsTruthyStr (s : String) : Bool :=
  decide (s ≠ "")

/-- JavaScript `a || b` on possibly-undefined string values: yields `a` when
`a` is defined and truthy, otherwise `b`. -/
def jsOrStr (a b : Option String) : Option String :=
  match a with
  | none => b
  | some s => if jsTruthyStr s then some s else b

/-- From useHouseholdSubscription, lines 45-49, the provider-label chain:
`householdStatus?.subscriptionProvider || (isNativePlatform && mobileHasPremium ? 'revenuecat' : 'stripe') || user?.subscriptionProvider || 'stripe'`.
The final getD is unreachable padding: the chain always ends on a defined
string because its last operand is the literal `'stripe'`. -/
def subscriptionProvider (householdStatus : Option HouseholdSubscriptionStatus)
    (isNativePlatform mobileHasPremium : Bool) (user : Option UserProfile) : String :=
  (jsOrStr
    (jsOrStr
      (jsOrStr (householdStatus.bind fun s => s.subscriptionProvider)
        (some (if isNativePlatform && mobileHasPremium then "revenuecat" else "stripe")))
      (user.bind fun u => u.subscriptionProvider))
    (some "stripe")).getD ""

/- ----------------------------------------------------------------- -/
/- Purchase-flow orchestrator, from usePurchases.ts and Pricing.tsx  -/
/- ----------------------------------------------------------------- -/

/-- Provider error payload, from `interface PurchasesError`. -/
structure PurchasesError where
  message : String
  code : String
deriving DecidableEq

/-- The shape of the result of `purchasesService.purchaseProduct` and
`purchasesService.restorePurchases`: `{ success, customerInfo?, error? }`.
The customerInfo payload itself is opaque SDK data; only its presence is
tested by the hook, so it is modelled by a presence flag. -/
structure PurchaseOutcome where
  success : Bool
  hasCustomerInfo : Bool
  error : Option PurchasesError
deriving DecidableEq

/-- The observable effects a run of the orchestrator emits, in order:
React state updates, network requests, browser redirects and toasts. -/
inductive Event where
  | setLoading (isLoading : Bool)
  | providerPurchaseCall (productId : String)
  | providerRestoreCall
  | setActiveSubscription (sub : Option ActiveSubscription)
  | apiRequest (method url : String)
  | verifyReturn (ok : Bool)
  | refreshDispatched
  | toast (title description : String) (destructive : Bool)
  | redirect (url : String)
deriving DecidableEq

/-- From usePurchases.verifyWithBackend: when not on a native platform it
returns immediately; otherwise it issues POST /api/revenuecat/verify, and
only on success dispatches the subscription-status-changed refresh event.
Failures are caught and logged, never rethrown and never surfaced to the
user (source comment: do not show user error for verification issues). -/
def verifyWithBackend (isNativePlatform serverVerifyOk : Bool) : List Event :=
  if !isNativePlatform then []
  else
    Event.apiRequest "POST" "/api/revenuecat/verify"
      :: (if serverVerifyOk then [Event.verifyReturn true, Event.refreshDispatched]
          else [Event.verifyReturn false])

/-- From usePurchases.purchaseProduct. Parameters stand for the values the
awaited collaborators return in a given run: `result` is what the provider
purchase call returns, `clientActive` is what the follow-up client-side
`getActiveSubscription` read returns, `serverVerifyOk` is whether the server
verification call succeeds. The returned Bool is the promise value; the list
is the ordered effects of the run. When the guard throws, the catch block
toasts and the finally block clears the loading flag. -/
def purchaseProduct (isInitialized isNativePlatform : Bool) (productId : String)
    (result : PurchaseOutcome) (clientActive : Option ActiveSubscription)
    (serverVerifyOk : Bool) : Bool × List Event :=
  if !(isInitialized && isNativePlatform) then
    (false, [Event.toast "Purchase Error" "Purchases not available on this platform" true,
             Event.setLoading false])
  else if result.success && result.hasCustomerInfo then
    (true,
      [Event.setLoading true, Event.providerPurchaseCall productId,
       Event.setActiveSubscription clientActive]
        ++ verifyWithBackend isNativePlatform serverVerifyOk
        ++ [Event.toast "Purchase Successful!"
              "Welcome to Premium! Your subscription is now active." false,
            Event.setLoading false])
  else
    match result.error with
    | some e =>
      if e.code = "PURCHASE_CANCELLED" then
        (false, [Event.setLoading true, Event.providerPurchaseCall productId,
                 Event.setLoading false])
      else
        (false, [Event.setLoading true, Event.providerPurchaseCall productId,
                 Event.toast "Purchase Failed" e.message true,
                 Event.setLoading false])
    | none =>
      (false, [Event.setLoading true, Event.providerPurchaseCall productId,
               Event.setLoading false])

/-- From usePurchases.restorePurchases, with the same reading of parameters
as purchaseProduct. The success toast depends on whether the client-side
read found an active entitlement; provider errors always toast. -/
def restorePurchases (isInitialized isNativePlatform : Bool)
    (result : PurchaseOutcome) (clientActive : Option ActiveSubscription)
    (serverVerifyOk : Bool) : Bool × List Event :=
  if !(isInitialized && isNativePlatform) then
    (false, [Event.toast "Restore Error" "Purchases not available on this platform" true,
             Event.setLoading false])
  else if result.success && result.hasCustomerInfo then
    (true,
      [Event.setLoading true, Event.providerRestoreCall,
       Event.setActiveSubscription clientActive]
        ++ verifyWithBackend isNativePlatform serverVerifyOk
        ++ [(if mobileHasPremium clientActive then
              Event.toast "Purchases Restored!"
                "Your Premium subscription has been restored." false
            else
              Event.toast "No Purchases Found"
                "No active subscriptions found to restore." false),
            Event.setLoading false])
  else
    match result.error with
    | some e =>
      (false, [Event.setLoading true, Event.providerRestoreCall,
               Event.toast "Restore Failed" e.message true,
               Event.setLoading false])
    | none =>
      (false, [Event.setLoading true, Event.providerRestoreCall,
               Event.setLoading false])

/-- The outcome of the checkout-session POST in a given run of
Pricing.handleUpgrade: a response carrying an optional url, or a rejection. -/
inductive CheckoutResponse where
  | ok (url : Option String)
  | fail (message : String)
deriving DecidableEq

/-- From Pricing.tsx handleUpgrade, lines 45-88. The native-platform gate
comes first inside the try block: on a native platform the function toasts
and returns before setting the loading flag and before any network request.
The coupon arguments only shape the request body, never the control flow. -/
def handleUpgrade (isNativePlatform useCoupon : Bool) (couponCode : String)
    (response : CheckoutResponse) : List Event :=
  if isNativePlatform then
    [Event.toast "Not Available"
      "Web subscriptions are not available in the mobile app. Please use the in-app purchase options."
      true]
  else
    Event.setLoading true
      :: Event.apiRequest "POST" "/api/create-checkout-session"
      :: (match response with
          | CheckoutResponse.ok (some url) => [Event.redirect url]
          | CheckoutResponse.ok none =>
            [Event.toast "Checkout Error" "No checkout URL received" true,
             Event.setLoading false]
          | CheckoutResponse.fail m =>
            [Event.toast "Checkout Error" m true, Event.setLoading false])

/-- An error-styled (destructive) toast. -/
def isErrorToast : Event → Bool
  | Event.toast _ _ destructive => destructive
  | _ => false

/-- A state update that makes the client-visible mobile entitlement premium. -/
def isPremiumStateUpdate : Event → Bool
  | Event.setActiveSubscription s => mobileHasPremium s
  | _ => false

/-- The server verification call returning (with either outcome). -/
def isVerifyReturn : Event → Bool
  | Event.verifyReturn _ => true
  | _ => false

/-- In a run trace, the first premium state update occurs and does so before
any return of the server verification call (or verification never returns at
all while the premium update happened). -/
def premiumUpdateBeforeVerifyReturn (events : List Event) : Bool :=
  match events.findIdx? isPremiumStateUpdate, events.findIdx? isVerifyReturn with
  | some i, some j => decide (i < j)
  | some _, none => true
  | _, _ => false

/- ----------------------------------------------------------------- -/
/- Theorems                                                          -/
/- ----------------------------------------------------------------- -/

/-- C8: getPlanLimits is total on the enumerated plan domain (it is a Lean
total function) and returns exactly the catalog values: basic grants
maxGroups 0, maxEventsPerMonth 0, maxMembersPerGroup -1, advanced features
off, chat and tasks on, event planning and mailing labels off; premium
grants all three numeric limits -1 and all five feature flags true. -/
theorem c8_plan_catalog_values :
    (getPlanLimits SubscriptionPlan.basic).maxGroups = 0
      ∧ (getPlanLimits SubscriptionPlan.basic).maxEventsPerMonth = 0
      ∧ (getPlanLimits SubscriptionPlan.basic).maxMembersPerGroup = -1
      ∧ (getPlanLimits SubscriptionPlan.basic).canUseAdvancedFeatures = false
      ∧ (getPlanLimits SubscriptionPlan.basic).hasRealTimeChat = true
      ∧ (getPlanLimits SubscriptionPlan.basic).hasTaskManagement = true
      ∧ (getPlanLimits SubscriptionPlan.basic).hasEventPlanning = false
      ∧ (getPlanLimits SubscriptionPlan.basic).hasMailingLabels = false
      ∧ (getPlanLimits SubscriptionPlan.premium).maxGroups = -1
      ∧ (getPlanLimits SubscriptionPlan.premium).maxEventsPerMonth = -1
      ∧ (getPlanLimits SubscriptionPlan.premium).maxMembersPerGroup = -1
      ∧ (getPlanLimits SubscriptionPlan.premium).canUseAdvancedFeatures = true
      ∧ (getPlanLimits SubscriptionPlan.premium).hasRealTimeChat = true
      ∧ (getPlanLimits SubscriptionPlan.premium).hasTaskManagement = true
      ∧ (getPlanLimits SubscriptionPlan.premium).hasEventPlanning = true
      ∧ (getPlanLimits SubscriptionPlan.premium).hasMailingLabels = true := by
  decide

/-- C10: canUserAccessFeature is a total function, so a numeric-limit key
never fails at runtime; the call returns the stored number and its
JavaScript truthiness decides the boolean use: for premium maxGroups the
stored sentinel -1 is truthy, for basic maxGroups the stored 0 is falsy. -/
theorem c10_numeric_feature_key_truthiness :
    canUserAccessFeature SubscriptionPlan.premium FeatureKey.maxGroups = LimitValue.num (-1)
      ∧ jsTruthyValue (canUserAccessFeature SubscriptionPlan.premium FeatureKey.maxGroups) = true
      ∧ canUserAccessFeature SubscriptionPlan.basic FeatureKey.maxGroups = LimitValue.num 0
      ∧ jsTruthyValue (canUserAccessFeature SubscriptionPlan.basic FeatureKey.maxGroups) = false := by
  decide

/-- C7: for every integer count and limit, hasReachedLimit returns true
exactly when the limit is not the -1 sentinel and the count has reached it;
in particular it returns false whenever limit = -1, and a negative count
never reaches a positive limit. Defined on Int, it cannot crash. -/
theorem c7_hasReachedLimit_characterization (currentCount limit : Int) :
    (hasReachedLimit currentCount limit = true ↔ limit ≠ -1 ∧ limit ≤ currentCount)
      ∧ (limit = -1 → hasReachedLimit currentCount limit = false)
      ∧ (currentCount < 0 → 0 < limit → hasReachedLimit currentCount limit = false) := by
  refine ⟨?_, ?_, ?_⟩
  · unfold hasReachedLimit
    by_cases h : limit = -1 <;> simp [h, ge_iff_le]
  · intro h
    simp [hasReachedLimit, h]
  · intro hc hl
    have hne : limit ≠ -1 := by omega
    simp [hasReachedLimit, hne, ge_iff_le]
    omega

/-- C7 witness: concrete instance at count -5, limit 3. -/
theorem c7_hasReachedLimit_witness :
    ((-5 : Int) < 0 ∧ (0 : Int) < 3)
      ∧ ((hasReachedLimit (-5) 3 = true ↔ (3 : Int) ≠ -1 ∧ (3 : Int) ≤ -5)
          ∧ ((3 : Int) = -1 → hasReachedLimit (-5) 3 = false)
          ∧ ((-5 : Int) < 0 → (0 : Int) < 3 → hasReachedLimit (-5) 3 = false)) :=
  ⟨by decide, c7_hasReachedLimit_characterization (-5) 3⟩

/-- C6: hasActiveSubscription returns true exactly when the plan is premium,
the status is active, and the end instant is absent or strictly later than
now; the boundary endsAt = now counts as expired, and the result never
depends on the provider argument. -/
theorem c6_hasActiveSubscription_characterization (subscriptionPlan subscriptionStatus : Option String)
    (subscriptionEndsAt : Option Int) (providerArg : Option String) (now : Int) :
    (hasActiveSubscription subscriptionPlan subscriptionStatus subscriptionEndsAt providerArg now = true
        ↔ subscriptionPlan = some "premium" ∧ subscriptionStatus = some "active"
          ∧ (subscriptionEndsAt = none ∨ ∃ t, subscriptionEndsAt = some t ∧ now < t))
      ∧ (∀ providerArg2 : Option String,
          hasActiveSubscription subscriptionPlan subscriptionStatus subscriptionEndsAt providerArg now
            = hasActiveSubscription subscriptionPlan subscriptionStatus subscriptionEndsAt providerArg2 now)
      ∧ hasActiveSubscription (some "premium") (some "active") (some now) providerArg now = false := by
  refine ⟨?_, fun _ => rfl, ?_⟩
  · unfold hasActiveSubscription
    by_cases h1 : subscriptionPlan = some "premium"
    · by_cases h2 : subscriptionStatus = some "active"
      · cases subscriptionEndsAt with
        | none => simp [h1, h2]
        | some t =>
          by_cases h3 : t ≤ now <;> simp [h1, h2, h3] <;> omega
      · simp [h1, h2]
    · simp [h1]
  · simp [hasActiveSubscription]

/-- C6 witness: concrete instance with the boundary input endsAt = now. -/
theorem c6_hasActiveSubscription_witness :
    (hasActiveSubscription (some "premium") (some "active") (some 100) none 100 = true
        ↔ (some "premium" : Option String) = some "premium"
          ∧ (some "active" : Option String) = some "active"
          ∧ ((some 100 : Option Int) = none ∨ ∃ t, (some 100 : Option Int) = some t ∧ (100 : Int) < t))
      ∧ (∀ providerArg2 : Option String,
          hasActiveSubscription (some "premium") (some "active") (some 100) none 100
            = hasActiveSubscription (some "premium") (some "active") (some 100) providerArg2 100)
      ∧ hasActiveSubscription (some "premium") (some "active") (some 100) none 100 = false :=
  c6_hasActiveSubscription_characterization (some "premium") (some "active") (some 100) none 100

/-- C1: for every combination of the three input sources and the native
flag, the reconciled decision is true exactly when the household reports
premium, or the platform is native and the mobile provider reports an
active entitlement, or the user profile plan is premium. A missing source
(none) contributes false, and any single true signal suffices, so the
reconciliation is the OR of the three signals, never an AND. -/
theorem c1_reconciliation_or (householdStatus : Option HouseholdSubscriptionStatus)
    (isNativePlatform : Bool) (activeSubscription : Option ActiveSubscription)
    (user : Option UserProfile) :
    computedHasPremium householdStatus isNativePlatform
        (mobileHasPremium activeSubscription) user = true
      ↔ ((∃ s, householdStatus = some s ∧ s.hasPremium = true)
          ∨ (isNativePlatform = true ∧ ∃ a, activeSubscription = some a ∧ a.isActive = true)
          ∨ (∃ u, user = some u ∧ u.subscriptionPlan = some "premium")) := by
  cases householdStatus <;> cases activeSubscription <;> cases user <;>
    simp [computedHasPremium, mobileHasPremium, userIsPremium] <;>
    tauto

/-- C1 witness: all sources missing on a native platform gives a
non-premium decision with no satisfiable disjunct. -/
theorem c1_reconciliation_or_witness :
    computedHasPremium none true (mobileHasPremium none) none = true
      ↔ ((∃ s, (none : Option HouseholdSubscriptionStatus) = some s ∧ s.hasPremium = true)
          ∨ (true = true ∧ ∃ a, (none : Option ActiveSubscription) = some a ∧ a.isActive = true)
          ∨ (∃ u, (none : Option UserProfile) = some u ∧ u.subscriptionPlan = some "premium")) :=
  c1_reconciliation_or none true none none

/-- C5: the code contradicts the claim. At the failing input the platform is
non-native, the household reports no premium and no provider, and the user
profile stores plan premium with provider revenuecat: the decision is indeed
premium, but the provider-label chain evaluates to stripe, not to the users
stored provider, because its middle operand (a ternary yielding the literal
stripe or revenuecat) is always a truthy non-empty string, so the
`user?.subscriptionProvider` operand is unreachable. -/
theorem c5_provider_chain_dead_branch :
    computedHasPremium
        (some (⟨false, none, none, none⟩ : HouseholdSubscriptionStatus)) false
        (mobileHasPremium none)
        (some (⟨some "premium", some "revenuecat"⟩ : UserProfile)) = true
      ∧ subscriptionProvider
          (some (⟨false, none, none, none⟩ : HouseholdSubscriptionStatus)) false false
          (some (⟨some "premium", some "revenuecat"⟩ : UserProfile)) = "stripe"
      ∧ subscriptionProvider
          (some (⟨false, none, none, none⟩ : HouseholdSubscriptionStatus)) false false
          (some (⟨some "premium", some "revenuecat"⟩ : UserProfile)) ≠ "revenuecat" := by
  refine ⟨rfl, rfl, by decide⟩

/-- C4: on a native platform every run of the web checkout upgrade path,
whatever the coupon arguments and whatever the checkout endpoint would have
answered, emits exactly one destructive policy toast and nothing else; in
particular no apiRequest event occurs, so the create-checkout-session
request is never issued. -/
theorem c4_native_blocks_web_checkout (useCoupon : Bool) (couponCode : String)
    (response : CheckoutResponse) :
    handleUpgrade true useCoupon couponCode response
        = [Event.toast "Not Available"
            "Web subscriptions are not available in the mobile app. Please use the in-app purchase options."
            true]
      ∧ ∀ e ∈ handleUpgrade true useCoupon couponCode response,
          ∀ method url, e ≠ Event.apiRequest method url := by
  refine ⟨rfl, ?_⟩
  simp [handleUpgrade]

/-- C4 witness: concrete native-platform run with a coupon and a checkout
endpoint that would have answered with a url. -/
theorem c4_native_blocks_web_checkout_witness :
    handleUpgrade true true "FAMILY50" (CheckoutResponse.ok (some "https://checkout.example/session"))
        = [Event.toast "Not Available"
            "Web subscriptions are not available in the mobile app. Please use the in-app purchase options."
            true]
      ∧ ∀ e ∈ handleUpgrade true true "FAMILY50"
            (CheckoutResponse.ok (some "https://checkout.example/session")),
          ∀ method url, e ≠ Event.apiRequest method url :=
  c4_native_blocks_web_checkout true "FAMILY50" (CheckoutResponse.ok (some "https://checkout.example/session"))

/-- C9: when the provider purchase call does not succeed and reports an
error, purchaseProduct returns false; if the error code is
PURCHASE_CANCELLED the run surfaces no error toast at all, while for any
other code the run surfaces a destructive toast carrying the providers
message. -/
theorem c9_cancellation_is_silent (productId : String) (result : PurchaseOutcome)
    (e : PurchasesError) (clientActive : Option ActiveSubscription) (serverVerifyOk : Bool)
    (hs : result.success = false) (he : result.error = some e) :
    (purchaseProduct true true productId result clientActive serverVerifyOk).1 = false
      ∧ (e.code = "PURCHASE_CANCELLED" →
          ∀ ev ∈ (purchaseProduct true true productId result clientActive serverVerifyOk).2,
            isErrorToast ev = false)
      ∧ (e.code ≠ "PURCHASE_CANCELLED" →
          Event.toast "Purchase Failed" e.message true
            ∈ (purchaseProduct true true productId result clientActive serverVerifyOk).2) := by
  refine ⟨?_, ?_, ?_⟩
  · simp [purchaseProduct, hs, he]
    split <;> rfl
  · intro hcode ev hev
    simp [purchaseProduct, hs, he, hcode] at hev
    rcases hev with h | h | h <;> simp [h, isErrorToast]
  · intro hcode
    simp [purchaseProduct, hs, he, hcode]

/-- C9 witness: a concrete cancelled run and a concrete provider-error run. -/
theorem c9_cancellation_is_silent_witness :
    ((⟨false, false, some ⟨"cancelled by user", "PURCHASE_CANCELLED"⟩⟩ : PurchaseOutcome).success = false
        ∧ (⟨false, false, some ⟨"cancelled by user", "PURCHASE_CANCELLED"⟩⟩ : PurchaseOutcome).error
            = some (⟨"cancelled by user", "PURCHASE_CANCELLED"⟩ : PurchasesError))
      ∧ ((purchaseProduct true true "my_branches_premium_monthly"
            (⟨false, false, some ⟨"cancelled by user", "PURCHASE_CANCELLED"⟩⟩ : PurchaseOutcome)
            none true).1 = false
          ∧ ((⟨"cancelled by user", "PURCHASE_CANCELLED"⟩ : PurchasesError).code = "PURCHASE_CANCELLED" →
              ∀ ev ∈ (purchaseProduct true true "my_branches_premium_monthly"
                  (⟨false, false, some ⟨"cancelled by user", "PURCHASE_CANCELLED"⟩⟩ : PurchaseOutcome)
                  none true).2,
                isErrorToast ev = false)
          ∧ ((⟨"cancelled by user", "PURCHASE_CANCELLED"⟩ : PurchasesError).code ≠ "PURCHASE_CANCELLED" →
              Event.toast "Purchase Failed"
                  (⟨"cancelled by user", "PURCHASE_CANCELLED"⟩ : PurchasesError).message true
                ∈ (purchaseProduct true true "my_branches_premium_monthly"
                    (⟨false, false, some ⟨"cancelled by user", "PURCHASE_CANCELLED"⟩⟩ : PurchaseOutcome)
                    none true).2)) :=
  ⟨⟨rfl, rfl⟩,
    c9_cancellation_is_silent "my_branches_premium_monthly"
      ⟨false, false, some ⟨"cancelled by user", "PURCHASE_CANCELLED"⟩⟩
      ⟨"cancelled by user", "PURCHASE_CANCELLED"⟩ none true rfl rfl⟩

/-- C2 counterexample: a concrete native-platform purchase run in which the
provider reports success and the client-side entitlement read is active. In
the emitted trace the premium state update (setActiveSubscription with an
active entitlement, which drives the client-visible hasPremium) occurs
strictly before the server verification call returns, and on a native
platform that client-sourced signal alone already makes the reconciled
decision premium. This refutes the claim that the UI-visible entitlement
state does not update to premium until re-verification has returned. -/
theorem c2_counterexample_optimistic_update :
    premiumUpdateBeforeVerifyReturn
        (purchaseProduct true true "my_branches_premium_monthly"
          (⟨true, true, none⟩ : PurchaseOutcome)
          (some (⟨"my_branches_premium_monthly", true, none, none, none⟩ : ActiveSubscription))
          true).2 = true
      ∧ computedHasPremium none true
          (mobileHasPremium
            (some (⟨"my_branches_premium_monthly", true, none, none, none⟩ : ActiveSubscription)))
          none = true :=
  ⟨rfl, rfl⟩

/-- C2 (amended): in every purchase and restore run in which the provider
reports success, the events occur in the order provider call, client-side
state update, server verification request, server verification return: the
server re-verification is always issued (never skipped) and only after
provider success, but the client-visible entitlement state is updated from
client-reported data before the verification returns, so a client-reported
success does by itself make the client-visible decision premium on a native
platform. -/
theorem c2_amended_verify_after_update (productId : String) (result : PurchaseOutcome)
    (clientActive : Option ActiveSubscription) (serverVerifyOk : Bool)
    (hs : result.success = true) (hc : result.hasCustomerInfo = true) :
    ((purchaseProduct true true productId result clientActive serverVerifyOk).2.get? 1
        = some (Event.providerPurchaseCall productId)
      ∧ (purchaseProduct true true productId result clientActive serverVerifyOk).2.get? 2
          = some (Event.setActiveSubscription clientActive)
      ∧ (purchaseProduct true true productId result clientActive serverVerifyOk).2.get? 3
          = some (Event.apiRequest "POST" "/api/revenuecat/verify")
      ∧ (purchaseProduct true true productId result clientActive serverVerifyOk).2.get? 4
          = some (Event.verifyReturn serverVerifyOk))
    ∧ ((restorePurchases true true result clientActive serverVerifyOk).2.get? 1
        = some Event.providerRestoreCall
      ∧ (restorePurchases true true result clientActive serverVerifyOk).2.get? 2
          = some (Event.setActiveSubscription clientActive)
      ∧ (restorePurchases true true result clientActive serverVerifyOk).2.get? 3
          = some (Event.apiRequest "POST" "/api/revenuecat/verify")
      ∧ (restorePurchases true true result clientActive serverVerifyOk).2.get? 4
          = some (Event.verifyReturn serverVerifyOk)) := by
  cases serverVerifyOk <;>
    simp [purchaseProduct, restorePurchases, verifyWithBackend, hs, hc, List.get?]

/-- C2 witness: the amended ordering at a concrete successful purchase run. -/
theorem c2_amended_verify_after_update_witness :
    ((⟨true, true, none⟩ : PurchaseOutcome).success = true
        ∧ (⟨true, true, none⟩ : PurchaseOutcome).hasCustomerInfo = true)
      ∧ (((purchaseProduct true true "my_branches_premium_annual"
            (⟨true, true, none⟩ : PurchaseOutcome) none false).2.get? 1
              = some (Event.providerPurchaseCall "my_branches_premium_annual")
          ∧ (purchaseProduct true true "my_branches_premium_annual"
              (⟨true, true, none⟩ : PurchaseOutcome) none false).2.get? 2
              = some (Event.setActiveSubscription none)
          ∧ (purchaseProduct true true "my_branches_premium_annual"
              (⟨true, true, none⟩ : PurchaseOutcome) none false).2.get? 3
              = some (Event.apiRequest "POST" "/api/revenuecat/verify")
          ∧ (purchaseProduct true true "my_branches_premium_annual"
              (⟨true, true, none⟩ : PurchaseOutcome) none false).2.get? 4
              = some (Event.verifyReturn false))
        ∧ ((restorePurchases true true (⟨true, true, none⟩ : PurchaseOutcome) none false).2.get? 1
              = some Event.providerRestoreCall
          ∧ (restorePurchases true true (⟨true, true, none⟩ : PurchaseOutcome) none false).2.get? 2
              = some (Event.setActiveSubscription none)
          ∧ (restorePurchases true true (⟨true, true, none⟩ : PurchaseOutcome) none false).2.get? 3
              = some (Event.apiRequest "POST" "/api/revenuecat/verify")
          ∧ (restorePurchases true true (⟨true, true, none⟩ : PurchaseOutcome) none false).2.get? 4
              = some (Event.verifyReturn false))) :=
  ⟨⟨rfl, rfl⟩,
    c2_amended_verify_after_update "my_branches_premium_annual" ⟨true, true, none⟩ none false rfl rfl⟩

/-- C3 counterexample: a concrete native-platform run in which the provider
purchase succeeds, the client-side entitlement read is active, and the
server verification call fails. The run still resolves to true, shows the
success toast, surfaces no error toast of any kind (in particular no
verification-failed error), and with the household query still reporting
false the reconciled client-visible decision is nevertheless premium. This
refutes both halves of the claim. -/
theorem c3_counterexample_verification_failure :
    (purchaseProduct true true "my_branches_premium_monthly"
        (⟨true, true, none⟩ : PurchaseOutcome)
        (some (⟨"my_branches_premium_monthly", true, none, none, none⟩ : ActiveSubscription))
        false).1 = true
      ∧ Event.toast "Purchase Successful!" "Welcome to Premium! Your subscription is now active." false
          ∈ (purchaseProduct true true "my_branches_premium_monthly"
              (⟨true, true, none⟩ : PurchaseOutcome)
              (some (⟨"my_branches_premium_monthly", true, none, none, none⟩ : ActiveSubscription))
              false).2
      ∧ (∀ ev ∈ (purchaseProduct true true "my_branches_premium_monthly"
              (⟨true, true, none⟩ : PurchaseOutcome)
              (some (⟨"my_branches_premium_monthly", true, none, none, none⟩ : ActiveSubscription))
              false).2, isErrorToast ev = false)
      ∧ Event.verifyReturn false
          ∈ (purchaseProduct true true "my_branches_premium_monthly"
              (⟨true, true, none⟩ : PurchaseOutcome)
              (some (⟨"my_branches_premium_monthly", true, none, none, none⟩ : ActiveSubscription))
              false).2
      ∧ computedHasPremium
          (some (⟨false, none, none, none⟩ : HouseholdSubscriptionStatus)) true
          (mobileHasPremium
            (some (⟨"my_branches_premium_monthly", true, none, none, none⟩ : ActiveSubscription)))
          none = true := by
  decide

/-- C3 (amended): in every purchase run in which the provider reports
success but the server verification fails, the orchestrator swallows the
verification failure: the run still resolves to true, shows the success
toast, surfaces no error toast, and the verification did return failure
inside the run. The household-query signal itself stays non-premium, yet on
a native platform the reconciled client-visible decision equals the
client-reported mobile signal, so it is premium whenever the client-side
entitlement read was active. -/
theorem c3_amended_failure_swallowed (productId : String) (result : PurchaseOutcome)
    (clientActive : Option ActiveSubscription)
    (hs : result.success = true) (hc : result.hasCustomerInfo = true) :
    (purchaseProduct true true productId result clientActive false).1 = true
      ∧ Event.toast "Purchase Successful!" "Welcome to Premium! Your subscription is now active." false
          ∈ (purchaseProduct true true productId result clientActive false).2
      ∧ (∀ ev ∈ (purchaseProduct true true productId result clientActive false).2,
          isErrorToast ev = false)
      ∧ Event.verifyReturn false ∈ (purchaseProduct true true productId result clientActive false).2
      ∧ (∀ hh : HouseholdSubscriptionStatus, hh.hasPremium = false →
          computedHasPremium (some hh) true (mobileHasPremium clientActive) none
            = mobileHasPremium clientActive) := by
  refine ⟨?_, ?_, ?_, ?_, ?_⟩
  · simp [purchaseProduct, hs, hc]
  · simp [purchaseProduct, verifyWithBackend, hs, hc]
  · intro ev hev
    simp [purchaseProduct, verifyWithBackend, hs, hc] at hev
    rcases hev with h | h | h | h | h | h | h <;> simp [h, isErrorToast]
  · simp [purchaseProduct, verifyWithBackend, hs, hc]
  · intro hh hp
    simp [computedHasPremium, userIsPremium, hp]

/-- C3 witness: the amended statement at a concrete failing-verification
run whose client-side entitlement read is active. -/
theorem c3_amended_failure_swallowed_witness :
    ((⟨true, true, none⟩ : PurchaseOutcome).success = true
        ∧ (⟨true, true, none⟩ : PurchaseOutcome).hasCustomerInfo = true)
      ∧ ((purchaseProduct true true "my_branches_premium_annual"
            (⟨true, true, none⟩ : PurchaseOutcome)
            (some (⟨"my_branches_premium_annual", true, none, none, none⟩ : ActiveSubscription))
            false).1 = true
        ∧ Event.toast "Purchase Successful!" "Welcome to Premium! Your subscription is now active." false
            ∈ (purchaseProduct true true "my_branches_premium_annual"
                (⟨true, true, none⟩ : PurchaseOutcome)
                (some (⟨"my_branches_premium_annual", true, none, none, none⟩ : ActiveSubscription))
                false).2
        ∧ (∀ ev ∈ (purchaseProduct true true "my_branches_premium_annual"
                (⟨true, true, none⟩ : PurchaseOutcome)
                (some (⟨"my_branches_premium_annual", true, none, none, none⟩ : ActiveSubscription))
                false).2, isErrorToast ev = false)
        ∧ Event.verifyReturn false
            ∈ (purchaseProduct true true "my_branches_premium_annual"
                (⟨true, true, none⟩ : PurchaseOutcome)
                (some (⟨"my_branches_premium_annual", true, none, none, none⟩ : ActiveSubscription))
                false).2
        ∧ (∀ hh : HouseholdSubscriptionStatus, hh.hasPremium = false →
            computedHasPremium (some hh) true
              (mobileHasPremium
                (some (⟨"my_branches_premium_annual", true, none, none, none⟩ : ActiveSubscription)))
              none
              = mobileHasPremium
                  (some (⟨"my_branches_premium_annual", true, none, none, none⟩ : ActiveSubscription)))) :=
  ⟨⟨rfl, rfl⟩,
    c3_amended_failure_swallowed "my_branches_premium_annual" ⟨true, true, none⟩
      (some ⟨"my_branches_premium_annual", true, none, none, none⟩) rfl rfl⟩

end MyBranches
